import Mathlib

/-!
Verification of the DaVinci Resolve marker import/export helper script
(src/scripts/davinci-resolve-helper.py).

We shallowly embed the pure translation logic of the script.  Host-owned
behaviour (the Resolve scripting API) is modelled as explicit parameters:

* a `Project` supplies the current timeline and timeline lookup by name
  (`GetCurrentTimeline` / `GetTimelineByName`); a timeline is represented
  by its name string;
* a `Host` function gives the outcome of each `AddMarker` call, indexed by
  the position of the call in the sequence of calls the script makes, so
  host state may evolve between calls;
* the filesystem is modelled by a `FileContent` value: the file is missing
  (FileNotFoundError), holds invalid JSON (JSONDecodeError), or parses as a
  JSON array of entries.

A parsed JSON object entry is modelled with `Option` fields: `none` means
the corresponding key is absent, so accessing it raises KeyError.  The
`start` field is `Option (Option Int)`: the outer layer is key presence,
the inner layer is whether `int(...)` conversion succeeds (ValueError
otherwise).

Python exceptions are modelled by explicit control flow: the per-entry loop
of `import_markers_from_json` runs inside a single try/except in the
source, so a KeyError or ValueError raised while destructuring an entry
aborts the loop and lands in the file-level handler.  Only exceptions
raised by `AddMarker` are caught locally, inside `create_marker`.

Printed output is modelled as a list of `OutputLine` values, one
constructor per print statement of the source.
-/

/-- A parsed element of the markers JSON array.  `none` in a field means the
key is missing from the object. -/
structure Entry where
  start : Option (Option Int)
  name : Option String
  color : Option String
  note : Option String
deriving DecidableEq

/-- Contents of the markers file as seen by `open` + `json.load`. -/
inductive FileContent where
  | missing
  | invalidJson
  | jsonArray (entries : List Entry)
deriving DecidableEq

/-- The argument tuple of a `timeline.AddMarker(frame, color_index, name,
note, 1)` call made by `create_marker`. -/
structure MarkerCall where
  frame : Int
  colorIndex : Nat
  name : String
  note : String
  duration : Int
deriving DecidableEq

/-- Host-owned outcome of an `AddMarker` call: a truthy return value, a
falsy return value, or a raised exception. -/
inductive AddMarkerResult where
  | ok
  | falsy
  | raises
deriving DecidableEq

/-- The host behaviour for `AddMarker`: outcome of the n-th call the script
makes, given the call arguments. -/
abbrev Host := Nat → MarkerCall → AddMarkerResult

/-- The open host project: `GetCurrentTimeline` and `GetTimelineByName`.
Timelines are represented by their names. -/
structure Project where
  currentTimeline : Option String
  timelineByName : String → Option String

/-- A marker object returned by the host `GetMarkers` call. -/
structure HostMarker where
  frameId : Int
  name : String
  color : String
  note : String
  duration : Int
deriving DecidableEq

/-- A record of the JSON array written (or printed) by
`export_timeline_markers`. -/
structure ExportRecord where
  frame : Int
  name : String
  color : String
  note : String
  duration : Int
deriving DecidableEq

/-- One printed line, one constructor per print statement in the source. -/
inductive OutputLine where
  | timelineNotFound (name : String)
  | importing (count : Nat) (timelineName : String)
  | createError (frame : Int)
  | created (name : String) (frame : Int)
  | failedLine (name : String) (frame : Int)
  | summary (successCount total : Nat)
  | fileNotFound (path : String)
  | invalidJsonMsg (path : String)
  | importError
  | noMarkers
  | exportedMsg (count : Nat) (path : String)
  | foundCount (count : Nat)
  | foundMarker (frame : Int) (name color : String)
deriving DecidableEq

/-- `get_timeline`: named lookup (printing an error when the name resolves
to nothing) or the current timeline. -/
def get_timeline (p : Project) : Option String → Option String × List OutputLine
  | some nm =>
    match p.timelineByName nm with
    | none => (none, [.timelineNotFound nm])
    | some t => (some t, [])
  | none => (p.currentTimeline, [])

/-- The fixed color table of `create_marker`. -/
def color_map : List (String × Nat) :=
  [("Red", 1), ("Green", 2), ("Blue", 3), ("Yellow", 4), ("Purple", 5),
   ("Orange", 6), ("Cyan", 7), ("Magenta", 8), ("White", 0)]

/-- `color_map.get(color, 0)`: dictionary lookup with default 0. -/
def colorIndexOf (color : String) : Nat :=
  (color_map.lookup color).getD 0

/-- `create_marker`: builds the `AddMarker` call and classifies its result.
Returns whether the returned marker is truthy, the call that was made, and
the error line printed when `AddMarker` raises (the exception is caught
here, locally). -/
def create_marker (host : Host) (idx : Nat) (frame : Int)
    (name color note : String) : Bool × MarkerCall × List OutputLine :=
  let call : MarkerCall := ⟨frame, colorIndexOf color, name, note, 1⟩
  match host idx call with
  | .ok => (true, call, [])
  | .falsy => (false, call, [])
  | .raises => (false, call, [.createError frame])

/-- State accumulated by the per-entry loop of `import_markers_from_json`:
the `AddMarker` calls made, the `success_count` variable, the printed
lines, and whether an exception escaped the loop body (KeyError from a
missing key, or ValueError from `int`), aborting the loop. -/
structure LoopState where
  calls : List MarkerCall
  successCount : Nat
  output : List OutputLine
  aborted : Bool
deriving DecidableEq

/-- The `for marker_data in markers_data` loop of
`import_markers_from_json`.  Each entry is destructured
(`marker_data[...]`, `int(...)`); a missing key or failed conversion
raises, aborting the loop with the work done so far kept; otherwise
`create_marker` is called and the success/failure line printed. -/
def processEntries (host : Host) : Nat → List Entry → LoopState
  | _, [] => ⟨[], 0, [], false⟩
  | idx, e :: rest =>
    match e.start, e.name, e.color, e.note with
    | some (some frame), some name, some color, some note =>
      let res := create_marker host idx frame name color note
      let line := if res.1 then OutputLine.created name frame
                  else OutputLine.failedLine name frame
      let st := processEntries host (idx + 1) rest
      ⟨res.2.1 :: st.calls, (if res.1 then 1 else 0) + st.successCount,
        res.2.2 ++ [line] ++ st.output, st.aborted⟩
    | _, _, _, _ => ⟨[], 0, [], true⟩

/-- Result of `import_markers_from_json`: the `AddMarker` calls made, the
printed lines, and the returned boolean. -/
structure ImportOutcome where
  calls : List MarkerCall
  output : List OutputLine
  ret : Bool
deriving DecidableEq

/-- `import_markers_from_json`: open and parse the file, resolve the
timeline, run the loop.  File-level exceptions (file missing, invalid
JSON, and any exception escaping the loop) are caught by the surrounding
try/except, print an error, and make the function return False. -/
def import_markers_from_json (p : Project) (host : Host) (json_file : String)
    (file : FileContent) (timeline_name : Option String) (fps : Rat) :
    ImportOutcome :=
  match file with
  | .missing => ⟨[], [.fileNotFound json_file], false⟩
  | .invalidJson => ⟨[], [.invalidJsonMsg json_file], false⟩
  | .jsonArray entries =>
    let gt := get_timeline p timeline_name
    match gt.1 with
    | none => ⟨[], gt.2, false⟩
    | some tlName =>
      let st := processEntries host 0 entries
      if st.aborted then
        ⟨st.calls, gt.2 ++ [.importing entries.length tlName] ++ st.output
          ++ [.importError], false⟩
      else
        ⟨st.calls, gt.2 ++ [.importing entries.length tlName] ++ st.output
          ++ [.summary st.successCount entries.length], true⟩

/-- The per-marker record built by `export_timeline_markers`: field values
are copied from the host marker unchanged. -/
def marker_record (m : HostMarker) : ExportRecord :=
  ⟨m.frameId, m.name, m.color, m.note, m.duration⟩

/-- Result of `export_timeline_markers`: the file written (path and JSON
array), the printed lines, and the returned boolean. -/
structure ExportOutcome where
  fileWritten : Option (String × List ExportRecord)
  output : List OutputLine
  ret : Bool
deriving DecidableEq

/-- `export_timeline_markers`: resolve the timeline, fetch its markers
(`markers_of` gives the host `GetMarkers` values in iteration order), and
either write the records to the output file or print them.  An empty
markers dict is falsy, so the function prints the no-markers message and
returns True before reaching the output branch. -/
def export_timeline_markers (p : Project) (markers_of : String → List HostMarker)
    (timeline_name : Option String) (output_file : Option String) :
    ExportOutcome :=
  let gt := get_timeline p timeline_name
  match gt.1 with
  | none => ⟨none, gt.2, false⟩
  | some tl =>
    let ms := markers_of tl
    if ms.isEmpty then ⟨none, gt.2 ++ [.noMarkers], true⟩
    else
      let marker_list := ms.map marker_record
      match output_file with
      | some path =>
        ⟨some (path, marker_list),
          gt.2 ++ [.exportedMsg marker_list.length path], true⟩
      | none =>
        ⟨none,
          gt.2 ++ [.foundCount marker_list.length]
            ++ marker_list.map (fun r => .foundMarker r.frame r.name r.color),
          true⟩

/-- Parsed CLI arguments of `main`. -/
structure Args where
  markers : Option String
  timeline : Option String
  fps : Rat
  list_timelines : Bool
  export_markers : Option String

/-- The operation `main` dispatches to. -/
inductive MainAction where
  | listTimelinesA
  | exportMarkersA (path : String)
  | importMarkersA (path : String)
  | printHelp
deriving DecidableEq

/-- Python truthiness of an optional string flag value: absent or empty is
falsy. -/
def strTruthy : Option String → Bool
  | none => false
  | some s => !s.isEmpty

/-- The dispatcher of `main`: the if/elif chain selecting the operation,
and the process exit code.  Only the import branch calls `sys.exit` with a
computed status; every other branch falls off the end of `main` and the
process exits 0. -/
def main_dispatch (p : Project) (host : Host)
    (markers_of : String → List HostMarker) (fs : String → FileContent)
    (a : Args) : MainAction × Nat :=
  if a.list_timelines then (.listTimelinesA, 0)
  else if strTruthy a.export_markers then
    let path := a.export_markers.getD ""
    let _ := export_timeline_markers p markers_of a.timeline (some path)
    (.exportMarkersA path, 0)
  else if strTruthy a.markers then
    let path := a.markers.getD ""
    let r := import_markers_from_json p host path (fs path) a.timeline a.fps
    (.importMarkersA path, if r.ret then 0 else 1)
  else (.printHelp, 0)

/-- An exported record, parsed back as an import entry: the written object
has keys frame, name, color, note and duration, so the required key
`start` is absent and `name`, `color`, `note` are present. -/
def exportRecordAsEntry (r : ExportRecord) : Entry :=
  ⟨none, some r.name, some r.color, some r.note⟩

/-- An entry is well formed when all four required keys are present and the
start value converts to an integer. -/
def wellFormedEntry (e : Entry) : Bool :=
  match e.start, e.name, e.color, e.note with
  | some (some _), some _, some _, some _ => true
  | _, _, _, _ => false

/-! ### Sample concrete values used by witnesses and counterexamples -/

/-- A sample open project whose current timeline is "Timeline 1", which is
also reachable by name. -/
def sampleProject : Project :=
  ⟨some "Timeline 1", fun nm => if nm = "Timeline 1" then some "Timeline 1" else none⟩

/-- A host on which every AddMarker call returns a truthy marker. -/
def hostAllOk : Host := fun _ _ => .ok

/-- A host on which every AddMarker call raises an exception. -/
def hostAllRaises : Host := fun _ _ => .raises

/-- A well formed entry. -/
def goodEntry : Entry := ⟨some (some 10), some "Round Start", some "Blue", some "intro"⟩

/-- Another well formed entry. -/
def goodEntry2 : Entry := ⟨some (some 20), some "Point", some "Red", some "score"⟩

/-- An entry whose required key start is missing. -/
def badEntry : Entry := ⟨none, some "Broken", some "Red", some "x"⟩

/-- A host markers function with one marker on every timeline. -/
def sampleMarkers : String → List HostMarker := fun _ => [⟨5, "M1", "Blue", "n1", 1⟩]

/-! ### Helper lemmas about the import loop -/

/-- A well formed entry is of the fully destructured shape. -/
theorem wellFormedEntry_eq (e : Entry) (h : wellFormedEntry e = true) :
    ∃ f nm cl nt, e = ⟨some (some f), some nm, some cl, some nt⟩ := by
  obtain ⟨s, n, c, t⟩ := e
  cases s with
  | none => simp [wellFormedEntry] at h
  | some s' =>
    cases s' with
    | none => simp [wellFormedEntry] at h
    | some f =>
      cases n with
      | none => simp [wellFormedEntry] at h
      | some nm =>
        cases c with
        | none => simp [wellFormedEntry] at h
        | some cl =>
          cases t with
          | none => simp [wellFormedEntry] at h
          | some nt => exact ⟨f, nm, cl, nt, rfl⟩

/-- Destructuring a malformed entry raises, aborting the loop at once. -/
theorem processEntries_cons_bad (host : Host) (idx : Nat) (e : Entry)
    (rest : List Entry) (h : wellFormedEntry e = false) :
    processEntries host idx (e :: rest) = ⟨[], 0, [], true⟩ := by
  obtain ⟨s, n, c, t⟩ := e
  cases s with
  | none => rfl
  | some s' =>
    cases s' with
    | none => rfl
    | some f =>
      cases n with
      | none => rfl
      | some nm =>
        cases c with
        | none => rfl
        | some cl =>
          cases t with
          | none => rfl
          | some nt => simp [wellFormedEntry] at h

/-- Unfolding equation of the loop on a well formed head entry. -/
theorem processEntries_cons_good (host : Host) (idx : Nat) (f : Int)
    (nm cl nt : String) (rest : List Entry) :
    processEntries host idx (⟨some (some f), some nm, some cl, some nt⟩ :: rest) =
      let res := create_marker host idx f nm cl nt
      let line := if res.1 then OutputLine.created nm f
                  else OutputLine.failedLine nm f
      let st := processEntries host (idx + 1) rest
      ⟨res.2.1 :: st.calls, (if res.1 then 1 else 0) + st.successCount,
        res.2.2 ++ [line] ++ st.output, st.aborted⟩ := rfl

/-- The loop aborts exactly when some entry is malformed. -/
theorem processEntries_aborted_eq (host : Host) :
    ∀ (l : List Entry) (idx : Nat),
      (processEntries host idx l).aborted = !l.all wellFormedEntry := by
  intro l
  induction l with
  | nil => intro idx; rfl
  | cons x rest ih =>
    intro idx
    cases hx : wellFormedEntry x with
    | false =>
      rw [processEntries_cons_bad host idx x rest hx]
      simp [hx]
    | true =>
      obtain ⟨f, nm, cl, nt, hxe⟩ := wellFormedEntry_eq x hx
      subst hxe
      have hpr : (processEntries host idx
          (Entry.mk (some (some f)) (some nm) (some cl) (some nt) :: rest)).aborted
          = (processEntries host (idx + 1) rest).aborted := rfl
      rw [hpr, ih (idx + 1)]
      simp [hx]

/-- Entries after the first malformed one are never reached: the loop on
a list that continues past a malformed entry equals the loop on the list
truncated right after that entry. -/
theorem processEntries_stops (host : Host) (e : Entry) (post : List Entry)
    (hbad : wellFormedEntry e = false) :
    ∀ (pre : List Entry) (idx : Nat), (∀ x ∈ pre, wellFormedEntry x = true) →
      processEntries host idx (pre ++ e :: post) =
        processEntries host idx (pre ++ [e]) := by
  intro pre
  induction pre with
  | nil =>
    intro idx _
    rw [List.nil_append, List.nil_append,
      processEntries_cons_bad host idx e post hbad,
      processEntries_cons_bad host idx e [] hbad]
  | cons x rest ih =>
    intro idx hwf
    obtain ⟨f, nm, cl, nt, hxe⟩ := wellFormedEntry_eq x (hwf x (by simp))
    subst hxe
    rw [List.cons_append, List.cons_append, processEntries_cons_good,
      processEntries_cons_good, ih (idx + 1) (fun y hy => hwf y (by simp [hy]))]

/-- When every AddMarker call returns a truthy marker, every well formed
entry is counted as a success. -/
theorem processEntries_allok (host : Host)
    (hok : ∀ i c, host i c = AddMarkerResult.ok) :
    ∀ (l : List Entry), (∀ x ∈ l, wellFormedEntry x = true) →
      ∀ idx, (processEntries host idx l).successCount = l.length := by
  intro l
  induction l with
  | nil => intro _ idx; rfl
  | cons x rest ih =>
    intro h idx
    obtain ⟨f, nm, cl, nt, hxe⟩ := wellFormedEntry_eq x (h x (by simp))
    subst hxe
    have hcnt : (processEntries host idx
        (Entry.mk (some (some f)) (some nm) (some cl) (some nt) :: rest)).successCount
        = (if (create_marker host idx f nm cl nt).1 then 1 else 0)
          + (processEntries host (idx + 1) rest).successCount := rfl
    have hres : (create_marker host idx f nm cl nt).1 = true := by
      simp [create_marker, hok]
    rw [hcnt, hres, ih (fun y hy => h y (by simp [hy])) (idx + 1)]
    simp [Nat.add_comm]

/-- The return value of import on a parsed JSON array: True exactly when
the timeline resolves and every entry is well formed. -/
theorem import_ret_true_iff (p : Project) (host : Host) (jf : String)
    (entries : List Entry) (tln : Option String) (fps : Rat) :
    (import_markers_from_json p host jf (.jsonArray entries) tln fps).ret = true ↔
      ((get_timeline p tln).1.isSome ∧ entries.all wellFormedEntry = true) := by
  rcases hgt : (get_timeline p tln).1 with _ | tl
  · simp [import_markers_from_json, hgt]
  · have hab := processEntries_aborted_eq host entries 0
    cases hall : entries.all wellFormedEntry with
    | false =>
      rw [hall] at hab
      simp [import_markers_from_json, hgt, hab]
    | true =>
      rw [hall] at hab
      simp [import_markers_from_json, hgt, hab]

/-- Any string outside the nine-entry table falls to the dictionary
default 0. -/
theorem colorIndexOf_default (s : String)
    (h : s ∉ (["Red", "Green", "Blue", "Yellow", "Purple", "Orange", "Cyan",
      "Magenta", "White"] : List String)) :
    colorIndexOf s = 0 := by
  simp only [List.mem_cons, List.not_mem_nil, or_false, not_or] at h
  obtain ⟨h1, h2, h3, h4, h5, h6, h7, h8, h9⟩ := h
  simp [colorIndexOf, color_map, List.lookup,
    beq_eq_false_iff_ne.mpr h1, beq_eq_false_iff_ne.mpr h2,
    beq_eq_false_iff_ne.mpr h3, beq_eq_false_iff_ne.mpr h4,
    beq_eq_false_iff_ne.mpr h5, beq_eq_false_iff_ne.mpr h6,
    beq_eq_false_iff_ne.mpr h7, beq_eq_false_iff_ne.mpr h8,
    beq_eq_false_iff_ne.mpr h9]

/-- C2: the AddMarker call built by create_marker carries the index the
color dictionary assigns to its color string; each of the nine fixed names
maps exactly to its table value, and any other string (so also any wrongly
cased variant) maps to the default 0. -/
theorem create_marker_color_table :
    (∀ (host : Host) (idx : Nat) (frame : Int) (nm color note : String),
      (create_marker host idx frame nm color note).2.1.colorIndex =
        colorIndexOf color) ∧
    colorIndexOf "Red" = 1 ∧ colorIndexOf "Green" = 2 ∧
    colorIndexOf "Blue" = 3 ∧ colorIndexOf "Yellow" = 4 ∧
    colorIndexOf "Purple" = 5 ∧ colorIndexOf "Orange" = 6 ∧
    colorIndexOf "Cyan" = 7 ∧ colorIndexOf "Magenta" = 8 ∧
    colorIndexOf "White" = 0 ∧
    ∀ s : String, s ∉ (["Red", "Green", "Blue", "Yellow", "Purple", "Orange",
      "Cyan", "Magenta", "White"] : List String) → colorIndexOf s = 0 := by
  refine ⟨?_, by decide, by decide, by decide, by decide, by decide, by decide,
    by decide, by decide, by decide, colorIndexOf_default⟩
  intro host idx frame nm color note
  cases hr : host idx ⟨frame, colorIndexOf color, nm, note, 1⟩ <;>
    simp [create_marker, hr]

/-- C2 witness: the lowercased name "red" is not in the table and maps to
the default 0 (case sensitivity). -/
theorem create_marker_color_table_witness : colorIndexOf "red" = 0 :=
  create_marker_color_table.2.2.2.2.2.2.2.2.2.2 "red" (by decide)

/-- C5: a missing file and invalid JSON are both caught, print the matching
error message, and make import return False; the function is total in the
model, so no exception escapes. -/
theorem import_file_errors_return_false :
    ∀ (p : Project) (host : Host) (jf : String) (tln : Option String)
      (fps : Rat),
      import_markers_from_json p host jf .missing tln fps =
        ⟨[], [.fileNotFound jf], false⟩ ∧
      import_markers_from_json p host jf .invalidJson tln fps =
        ⟨[], [.invalidJsonMsg jf], false⟩ :=
  fun _ _ _ _ _ => ⟨rfl, rfl⟩

/-- C8: the fps argument is accepted but never used, so the whole outcome
of import (the AddMarker calls, all printed lines, and the return value) is
the same under any two fps values. -/
theorem import_fps_irrelevant :
    ∀ (p : Project) (host : Host) (jf : String) (file : FileContent)
      (tln : Option String) (fps1 fps2 : Rat),
      import_markers_from_json p host jf file tln fps1 =
        import_markers_from_json p host jf file tln fps2 :=
  fun _ _ _ _ _ _ _ => rfl

/-- C1 counterexample: on the array [badEntry, goodEntry] with a host
whose AddMarker always succeeds, the missing start key of the first entry
is NOT handled per-entry: no AddMarker call is made at all (the well formed
second entry is never processed), no completion summary counting the
failure is printed, and import returns False. -/
theorem import_missing_key_not_per_entry :
    (import_markers_from_json sampleProject hostAllOk "markers.json"
        (.jsonArray [badEntry, goodEntry]) none 30).calls = [] ∧
    (import_markers_from_json sampleProject hostAllOk "markers.json"
        (.jsonArray [badEntry, goodEntry]) none 30).output =
      [.importing 2 "Timeline 1", .importError] ∧
    (import_markers_from_json sampleProject hostAllOk "markers.json"
        (.jsonArray [badEntry, goodEntry]) none 30).ret = false := by
  decide

/-- C1 (amended): an entry missing a required key raises KeyError, which is
caught by the file-level handler, not per entry: entries before it are
processed normally, the loop stops at the malformed entry (later entries
produce no AddMarker calls and no lines), no summary is printed, the
file-level import error line is printed and import returns False. -/
theorem import_missing_key_aborts :
    ∀ (p : Project) (host : Host) (jf : String) (pre post : List Entry)
      (e : Entry) (tln : Option String) (fps : Rat) (tl : String),
      (get_timeline p tln).1 = some tl →
      (∀ x ∈ pre, wellFormedEntry x = true) →
      wellFormedEntry e = false →
      import_markers_from_json p host jf (.jsonArray (pre ++ e :: post))
          tln fps =
        { calls := (processEntries host 0 (pre ++ [e])).calls,
          output := (get_timeline p tln).2
            ++ [.importing (pre ++ e :: post).length tl]
            ++ (processEntries host 0 (pre ++ [e])).output
            ++ [.importError],
          ret := false } := by
  intro p host jf pre post e tln fps tl hgt hpre hbad
  have hstop := processEntries_stops host e post hbad pre 0 hpre
  have hab2 : (processEntries host 0 (pre ++ [e])).aborted = true := by
    rw [processEntries_aborted_eq]
    simp [List.all_append, hbad]
  simp [import_markers_from_json, hgt, hstop, hab2]

/-- C1 witness: with a well formed entry, then a malformed one, then
another well formed one, import makes exactly one AddMarker call (for the
first entry), prints its success line then the import error, and returns
False. -/
theorem import_missing_key_aborts_witness :
    import_markers_from_json sampleProject hostAllOk "markers.json"
        (.jsonArray [goodEntry, badEntry, goodEntry2]) none 30 =
      { calls := [⟨10, 3, "Round Start", "intro", 1⟩],
        output := [.importing 3 "Timeline 1", .created "Round Start" 10,
          .importError],
        ret := false } := by
  have h := import_missing_key_aborts sampleProject hostAllOk "markers.json"
    [goodEntry] [goodEntry2] badEntry none 30 "Timeline 1" rfl
    (by decide) rfl
  simp only [List.cons_append, List.nil_append] at h
  rw [h]
  decide

/-- C3 counterexample: an input whose file parses as a JSON array and whose
timeline resolves, on a host where no AddMarker call ever fails, yet import
returns False (the single entry is missing its start key). -/
theorem import_ret_malformed_entry_cex :
    (import_markers_from_json sampleProject hostAllOk "markers.json"
        (.jsonArray [badEntry]) none 30).ret = false := by
  decide

/-- C3 (amended): import returns False only for errors reaching the
file-level handler, which include a KeyError or ValueError from a
malformed entry; when the file parses as a JSON array of well formed
entries and the timeline resolves, import returns True no matter how many
per-marker AddMarker calls fail. -/
theorem import_ret_file_level_only :
    ∀ (p : Project) (host : Host) (jf : String) (entries : List Entry)
      (tln : Option String) (fps : Rat) (tl : String),
      (get_timeline p tln).1 = some tl →
      (∀ x ∈ entries, wellFormedEntry x = true) →
      (import_markers_from_json p host jf (.jsonArray entries) tln fps).ret =
        true := by
  intro p host jf entries tln fps tl hgt hwf
  rw [import_ret_true_iff]
  exact ⟨by simp [hgt], List.all_eq_true.mpr hwf⟩

/-- C3 witness: two well formed entries on a host where every AddMarker
call raises (so both markers fail), yet import returns True. -/
theorem import_ret_file_level_only_witness :
    (import_markers_from_json sampleProject hostAllRaises "markers.json"
        (.jsonArray [goodEntry, goodEntry2]) none 30).ret = true :=
  import_ret_file_level_only sampleProject hostAllRaises "markers.json"
    [goodEntry, goodEntry2] none 30 "Timeline 1" rfl (by decide)

/-- C4: with a resolved timeline, importing an empty JSON array makes no
AddMarker call, reports the summary 0/0 and returns True; and importing N
well formed entries when every AddMarker call returns a truthy marker
reports the summary N/N and returns True. -/
theorem import_success_counts :
    ∀ (p : Project) (host : Host) (jf : String) (tln : Option String)
      (fps : Rat) (tl : String),
      (get_timeline p tln).1 = some tl →
      (import_markers_from_json p host jf (.jsonArray []) tln fps =
        ⟨[], (get_timeline p tln).2 ++ [.importing 0 tl, .summary 0 0],
          true⟩) ∧
      (∀ entries : List Entry, (∀ x ∈ entries, wellFormedEntry x = true) →
        (∀ i c, host i c = AddMarkerResult.ok) →
        (import_markers_from_json p host jf (.jsonArray entries) tln fps).ret
            = true ∧
        OutputLine.summary entries.length entries.length ∈
          (import_markers_from_json p host jf (.jsonArray entries) tln
            fps).output) := by
  intro p host jf tln fps tl hgt
  constructor
  · simp [import_markers_from_json, hgt, processEntries]
  · intro entries hwf hok
    have hab : (processEntries host 0 entries).aborted = false := by
      rw [processEntries_aborted_eq]
      simp [List.all_eq_true.mpr hwf]
    have hcnt := processEntries_allok host hok entries hwf 0
    constructor
    · simp [import_markers_from_json, hgt, hab]
    · simp [import_markers_from_json, hgt, hab, hcnt]

/-- C4 witness: on the sample project, the empty array gives the 0/0
summary and True; two well formed entries on an all-succeeding host give
the 2/2 summary. -/
theorem import_success_counts_witness :
    import_markers_from_json sampleProject hostAllOk "markers.json"
        (.jsonArray []) none 30 =
      ⟨[], [.importing 0 "Timeline 1", .summary 0 0], true⟩ ∧
    OutputLine.summary 2 2 ∈
      (import_markers_from_json sampleProject hostAllOk "markers.json"
        (.jsonArray [goodEntry, goodEntry2]) none 30).output := by
  have h := import_success_counts sampleProject hostAllOk "markers.json"
    none 30 "Timeline 1" rfl
  exact ⟨h.1, (h.2 [goodEntry, goodEntry2] (by decide) (fun _ _ => rfl)).2⟩

/-- C6 counterexample: with zero markers on the resolved timeline and an
output path given, export prints the no-markers message, returns True, and
writes NO file at all (fileWritten is none, not an empty JSON file). -/
theorem export_zero_markers_cex :
    export_timeline_markers sampleProject (fun _ => []) none
        (some "out.json") =
      ⟨none, [.noMarkers], true⟩ := by
  decide

/-- C6 (amended): when the resolved timeline has zero markers, export
returns True and prints the no-markers message, whether or not an output
path is given; the empty markers dict is falsy, so the function returns
before the write branch and no file is produced. -/
theorem export_zero_markers_no_file :
    ∀ (p : Project) (mfn : String → List HostMarker) (tln : Option String)
      (ofile : Option String) (tl : String),
      (get_timeline p tln).1 = some tl → mfn tl = [] →
      export_timeline_markers p mfn tln ofile =
        ⟨none, (get_timeline p tln).2 ++ [.noMarkers], true⟩ := by
  intro p mfn tln ofile tl hgt hm
  simp [export_timeline_markers, hgt, hm]

/-- C6 witness: the sample project with zero markers and no output path
prints the no-markers message and returns True. -/
theorem export_zero_markers_no_file_witness :
    export_timeline_markers sampleProject (fun _ => []) none none =
      ⟨none, [.noMarkers], true⟩ :=
  export_zero_markers_no_file sampleProject (fun _ => []) none none
    "Timeline 1" rfl rfl

/-- C7: with a resolved timeline holding at least one marker and an output
path, the written JSON array is exactly the host markers converted by
marker_record, and marker_record copies the host color value unchanged (no
reverse mapping from index to name). -/
theorem export_color_passthrough :
    ∀ (p : Project) (mfn : String → List HostMarker) (nm tl path : String),
      p.timelineByName nm = some tl → (mfn tl).isEmpty = false →
      (export_timeline_markers p mfn (some nm)
          (some path)).fileWritten =
        some (path, (mfn tl).map marker_record) ∧
      ∀ m : HostMarker, (marker_record m).color = m.color := by
  intro p mfn nm tl path hnm hne
  constructor
  · simp [export_timeline_markers, get_timeline, hnm, hne]
  · intro m
    rfl

/-- C7 witness: the sample markers function exports its single marker with
the color string "Blue" passed through unchanged. -/
theorem export_color_passthrough_witness :
    (export_timeline_markers sampleProject sampleMarkers
        (some "Timeline 1") (some "out.json")).fileWritten =
      some ("out.json", [⟨5, "M1", "Blue", "n1", 1⟩]) ∧
    (marker_record ⟨5, "M1", "Blue", "n1", 1⟩).color = "Blue" := by
  have h := export_color_passthrough sampleProject sampleMarkers
    "Timeline 1" "Timeline 1" "out.json" (by decide) (by decide)
  exact ⟨h.1, h.2 ⟨5, "M1", "Blue", "n1", 1⟩⟩

/-- C9: the dispatcher selects exactly one operation per invocation, in
the precedence order list-timelines, export-markers, import-markers, and
prints usage help when none of these flags carries a truthy value; the
exit code is 0 on every non-import path and on the import path it is 1
exactly when import returns False.  (Per Python truthiness, a flag given
as the empty string behaves as absent.) -/
theorem main_dispatch_spec :
    ∀ (p : Project) (host : Host) (mfn : String → List HostMarker)
      (fs : String → FileContent) (a : Args),
      (a.list_timelines = true →
        main_dispatch p host mfn fs a = (.listTimelinesA, 0)) ∧
      (a.list_timelines = false → strTruthy a.export_markers = true →
        main_dispatch p host mfn fs a =
          (.exportMarkersA (a.export_markers.getD ""), 0)) ∧
      (a.list_timelines = false → strTruthy a.export_markers = false →
        strTruthy a.markers = true →
        main_dispatch p host mfn fs a =
          (.importMarkersA (a.markers.getD ""),
            if (import_markers_from_json p host (a.markers.getD "")
                  (fs (a.markers.getD "")) a.timeline a.fps).ret
            then 0 else 1)) ∧
      (a.list_timelines = false → strTruthy a.export_markers = false →
        strTruthy a.markers = false →
        main_dispatch p host mfn fs a = (.printHelp, 0)) := by
  intro p host mfn fs a
  refine ⟨fun h1 => ?_, fun h1 h2 => ?_, fun h1 h2 h3 => ?_,
    fun h1 h2 h3 => ?_⟩ <;>
    simp [main_dispatch, h1]
  · simp [h2]
  · simp [h2, h3]
  · simp [h2, h3]

/-- C9 witness: with no flag given the dispatcher prints usage help and
exits 0. -/
theorem main_dispatch_spec_witness :
    main_dispatch sampleProject hostAllOk sampleMarkers
        (fun _ => .invalidJson) ⟨none, none, 30, false, none⟩ =
      (.printHelp, 0) :=
  (main_dispatch_spec sampleProject hostAllOk sampleMarkers
    (fun _ => .invalidJson) ⟨none, none, 30, false, none⟩).2.2.2 rfl rfl rfl

/-- C10: export writes each frame position under the key frame while the
importer requires the key start, so for every resolved timeline with at
least one marker, the exported file parses as a nonempty JSON array whose
entries all lack the start key, and re-importing it returns False (the
KeyError lands in the file-level handler), whatever project, host and
timeline flag the re-import runs against. -/
theorem export_import_not_roundtrip :
    ∀ (p : Project) (mfn : String → List HostMarker) (nm tl path : String)
      (p2 : Project) (host : Host) (tln2 : Option String) (fps : Rat),
      p.timelineByName nm = some tl → mfn tl ≠ [] →
      (export_timeline_markers p mfn (some nm) (some path)).fileWritten =
        some (path, (mfn tl).map marker_record) ∧
      ((mfn tl).map marker_record) ≠ [] ∧
      (import_markers_from_json p2 host path
          (.jsonArray (((mfn tl).map marker_record).map exportRecordAsEntry))
          tln2 fps).ret = false := by
  intro p mfn nm tl path p2 host tln2 fps hnm hne
  have hie : (mfn tl).isEmpty = false := by
    cases hl : mfn tl with
    | nil => exact absurd hl hne
    | cons m ms => rfl
  refine ⟨by simp [export_timeline_markers, get_timeline, hnm, hie], ?_, ?_⟩
  · simp [hne]
  · cases hl : mfn tl with
    | nil => exact absurd hl hne
    | cons m ms =>
      have hbad : wellFormedEntry (exportRecordAsEntry (marker_record m))
          = false := rfl
      have hall : (((m :: ms).map marker_record).map
          exportRecordAsEntry).all wellFormedEntry = false := by
        simp [List.all_cons, hbad]
      cases hr : (import_markers_from_json p2 host path
          (.jsonArray (((m :: ms).map marker_record).map exportRecordAsEntry))
          tln2 fps).ret with
      | false => rfl
      | true =>
        rw [import_ret_true_iff] at hr
        rw [hall] at hr
        exact absurd hr.2 (by simp)

/-- C10 witness: the single sample marker exports to one record, and
re-importing the exported array fails. -/
theorem export_import_not_roundtrip_witness :
    (export_timeline_markers sampleProject sampleMarkers (some "Timeline 1")
        (some "out.json")).fileWritten =
      some ("out.json", [⟨5, "M1", "Blue", "n1", 1⟩]) ∧
    (import_markers_from_json sampleProject hostAllOk "out.json"
        (.jsonArray (((sampleMarkers "Timeline 1").map marker_record).map
          exportRecordAsEntry)) none 30).ret = false := by
  have h := export_import_not_roundtrip sampleProject sampleMarkers
    "Timeline 1" "Timeline 1" "out.json" sampleProject hostAllOk none 30
    (by decide) (by decide)
  exact ⟨h.1, h.2.2⟩
